import Mathlib

/-!
Verification of the authentication and credential-lifecycle core of the
videogen-api repository, shallowly embedded from the TypeScript source
(`src/services/auth.service.ts`, `src/utils/email.service.ts`,
`src/models/User.ts`, `src/middleware/errorHandler.ts`).

Conventions of the embedding:
* Timestamps are natural numbers of milliseconds since the epoch
  (mirroring JavaScript `Date` arithmetic); `Date.now()` at the moment of
  a call becomes an explicit `now : Nat` argument.
* The Mongo store lookup (`User.findOne` / `User.findById`) becomes an
  `Option UserRec` argument: the record matching the query key, if any.
* The bcrypt hasher is an external collaborator; it is modelled by an
  injective deterministic tag function, with `bcryptCompare c h` defined
  exactly as bcrypt semantics require: the candidate re-hashes to the
  stored hash.  The mongoose pre-save hook hashes `password` on every
  write of that field, which the embedding performs at each assignment.
* The JWT signer is an external collaborator; tokens are modelled as
  tagged strings built from the payload, which is all the service ever
  observes of them.
* `emailService.sendEmail` catches every transport error internally and
  returns `false` in that case (`email.service.ts` lines 234-262); it
  never throws.  The embedding gives each operation that dispatches mail
  a `deliveryOk : Bool` argument standing for the transport outcome and
  threads it to `sendEmail`, whose Boolean result the service code
  discards — exactly as in the source.
-/

/-- Operational error raised by the service layer
(`AppError` in `middleware/errorHandler.ts`): message plus HTTP status. -/
structure AppError where
  message : String
  statusCode : Nat
deriving Repr, DecidableEq

/-- The spec error taxonomy maps `Unauthorized` to the 401 status class
(spec section 6: "401 auth failure"). -/
def isUnauthorizedStatus (e : AppError) : Bool :=
  e.statusCode == 401

/-- Deterministic model of the external bcrypt hasher (collaborator,
out of the core per the spec §1): an injective tag of the plaintext. -/
def bcryptHash (plaintext : String) : String :=
  "bcrypt$" ++ plaintext

/-- Model of `bcrypt.compare(candidate, storedHash)` as used by
`userSchema.methods.comparePassword`: true iff the candidate hashes to
the stored hash. -/
def bcryptCompare (candidate storedHash : String) : Bool :=
  bcryptHash candidate == storedHash

/-- Persisted user record (`User` schema in `models/User.ts`).
`password` stores the bcrypt hash (the pre-save hook hashes every
assignment of the field).  Optional code/expiry fields are `select:false`
columns, absent (`none`) unless set. -/
structure UserRec where
  id : Nat
  name : String
  email : String
  password : String
  plan : String
  isAdmin : Bool
  isEmailVerified : Bool
  emailVerificationCode : Option String
  emailVerificationExpires : Option Nat
  passwordResetCode : Option String
  passwordResetExpires : Option Nat
  connectedPlatforms : List String
  videosGenerated : Nat
  lastLogin : Option Nat
deriving Repr, DecidableEq

/-- JWT payload built by `createJWTPayload` in `utils/jwt.ts`: it copies
the user id into both `userId` and `id`, plus email, plan, isAdmin. -/
structure JWTPayload where
  userId : Nat
  id : Nat
  email : String
  plan : String
  isAdmin : Bool
deriving Repr, DecidableEq

def createJWTPayload (u : UserRec) : JWTPayload :=
  { userId := u.id, id := u.id, email := u.email, plan := u.plan, isAdmin := u.isAdmin }

/-- Model of `jwt.sign(payload, JWT_SECRET, ...)`: an opaque-to-the-service
signed string determined by the payload and the signing secret. -/
def generateAccessToken (p : JWTPayload) : String :=
  "jwt.access." ++ toString p.userId ++ "." ++ p.email

/-- Model of `jwt.sign(payload, JWT_REFRESH_SECRET, ...)`. -/
def generateRefreshToken (p : JWTPayload) : String :=
  "jwt.refresh." ++ toString p.userId ++ "." ++ p.email

/-- Model of `generateTokens` in `utils/jwt.ts`: the access/refresh pair. -/
structure TokenPair where
  accessToken : String
  refreshToken : String
deriving Repr, DecidableEq

def generateTokens (p : JWTPayload) : TokenPair :=
  { accessToken := generateAccessToken p, refreshToken := generateRefreshToken p }

/-- Projected user view returned inside `AuthResponse` objects
(the literal built at `auth.service.ts` lines 107-115 and its twins). -/
structure UserView where
  id : Nat
  name : String
  email : String
  plan : String
  isAdmin : Bool
  connectedPlatforms : List String
  videosGenerated : Nat
deriving Repr, DecidableEq

def toUserView (u : UserRec) : UserView :=
  { id := u.id, name := u.name, email := u.email, plan := u.plan,
    isAdmin := u.isAdmin, connectedPlatforms := u.connectedPlatforms,
    videosGenerated := u.videosGenerated }

/-- Embeds `AuthResponse` (`types/index.ts`): projected user plus token pair. -/
structure AuthResponse where
  user : UserView
  token : String
  refreshToken : String
deriving Repr, DecidableEq

/-- The response block shared verbatim by `verifyEmail`, `login` and
`resetPassword` in `auth.service.ts`. -/
def mkAuthResponse (u : UserRec) : AuthResponse :=
  let p := createJWTPayload u
  let tokens := generateTokens p
  { user := toUserView u, token := tokens.accessToken,
    refreshToken := tokens.refreshToken }

/-- Embeds `emailService.sendEmail` (`email.service.ts` lines 234-262): the
try/catch around the SMTP transport converts any transport failure into a
logged console fallback and a `false` return value; the method never
throws.  `deliveryOk` is the transport outcome. -/
def EmailService.sendEmail (deliveryOk : Bool) : Bool :=
  deliveryOk

/-- The wrappers `sendVerificationCode` / `sendPasswordResetCode` / `sendWelcomeEmail`
all delegate to `sendEmail` and return its Boolean. -/
def EmailService.sendCodeEmail (deliveryOk : Bool) : Bool :=
  EmailService.sendEmail deliveryOk

/-- Ten-minute validity window attached to every generated code
(`new Date(Date.now() + 10 * 60 * 1000)`). -/
def codeWindowMs : Nat := 10 * 60 * 1000

/-- Embeds `emailService.generateVerificationCode`: 6-digit numeric string in
[100000, 999999]; the random draw becomes the argument `r`. -/
def generateVerificationCode (r : Nat) : String :=
  toString (100000 + r % 900000)

/-- JavaScript truthiness of `user.emailVerificationCode`
(an optional string): `!x` holds for `undefined` and for `""`. -/
def strFalsy : Option String → Bool
  | none => true
  | some s => s.isEmpty

/-- JavaScript truthiness of an optional `Date` field: a `Date` object is
always truthy, so `!x` holds only for `undefined`. -/
def dateFalsy : Option Nat → Bool
  | none => true
  | some _ => false

def userExistsMessage : String := "User with this email already exists"
def regMessage : String := "Verification code sent to your email"
def forgotMessage : String :=
  "If an account with that email exists, a password reset code has been sent"
def alreadyVerifiedError : AppError := AppError.mk "Email already verified" 400
def invalidResetCodeError : AppError := AppError.mk "Invalid or expired reset code" 400
def codeExpiredError : AppError :=
  AppError.mk "Verification code has expired. Please request a new one." 400
def codeMissingError : AppError :=
  AppError.mk "No verification code found. Please request a new one." 400
def notVerifiedForgotError : AppError :=
  AppError.mk "Please verify your email first before resetting password" 400

/-- Embeds `AuthService.register` (`auth.service.ts` lines 23-64).
`existingUser` is the result of `User.findOne({email})`; `freshId` is the
id the store would assign to a created document; `verificationCode` is
the draw of the generator; `deliveryOk` the mail-transport outcome.  Returns
the written record, the message and `tempUserId`. -/
def register (existingUser : Option UserRec) (name email password : String)
    (verificationCode : String) (freshId now : Nat) (deliveryOk : Bool) :
    Except AppError (UserRec × String × Nat) :=
  match existingUser with
  | some u =>
    if u.isEmailVerified then
      Except.error (AppError.mk userExistsMessage 400)
    else
      -- update existing unverified user; pre-save hook hashes the password
      let u2 := { u with
        name := name
        password := bcryptHash password
        emailVerificationCode := some verificationCode
        emailVerificationExpires := some (now + codeWindowMs) }
      -- send result awaited but discarded, sendEmail never throws
      let _sent := EmailService.sendCodeEmail deliveryOk
      Except.ok (u2, regMessage, u2.id)
  | none =>
    -- create new user; pre-save hooks hash the password and stamp
    -- lastLogin on a new document
    let u2 : UserRec := {
      id := freshId
      name := name
      email := email
      password := bcryptHash password
      plan := "free"
      isAdmin := false
      isEmailVerified := false
      emailVerificationCode := some verificationCode
      emailVerificationExpires := some (now + codeWindowMs)
      passwordResetCode := none
      passwordResetExpires := none
      connectedPlatforms := []
      videosGenerated := 0
      lastLogin := some now }
    let _sent := EmailService.sendCodeEmail deliveryOk
    Except.ok (u2, regMessage, u2.id)

/-- Embeds `AuthService.verifyEmail` (`auth.service.ts` lines 69-119).
`user` is `User.findById(userId)` with the code fields selected. -/
def verifyEmail (user : Option UserRec) (code : String) (now : Nat)
    (deliveryOk : Bool) : Except AppError (UserRec × AuthResponse) :=
  match user with
  | none => Except.error (AppError.mk "User not found" 404)
  | some u =>
    if u.isEmailVerified then
      Except.error alreadyVerifiedError
    else if strFalsy u.emailVerificationCode || dateFalsy u.emailVerificationExpires then
      Except.error codeMissingError
    else
      match u.emailVerificationCode, u.emailVerificationExpires with
      | some c, some e =>
        if e < now then
          Except.error codeExpiredError
        else if c ≠ code then
          Except.error (AppError.mk "Invalid verification code" 400)
        else
          let u2 := { u with
            isEmailVerified := true
            emailVerificationCode := none
            emailVerificationExpires := none
            lastLogin := some now }
          -- welcome email: awaited, never throws, result discarded
          let _sent := EmailService.sendCodeEmail deliveryOk
          Except.ok (u2, mkAuthResponse u2)
      | _, _ => Except.error codeMissingError

/-- Embeds `AuthService.resendVerificationCode` (`auth.service.ts` lines 124-147). -/
def resendVerificationCode (user : Option UserRec) (verificationCode : String)
    (now : Nat) (deliveryOk : Bool) : Except AppError (UserRec × String) :=
  match user with
  | none => Except.error (AppError.mk "User not found" 404)
  | some u =>
    if u.isEmailVerified then
      Except.error alreadyVerifiedError
    else
      let u2 := { u with
        emailVerificationCode := some verificationCode
        emailVerificationExpires := some (now + codeWindowMs) }
      let _sent := EmailService.sendCodeEmail deliveryOk
      Except.ok (u2, regMessage)

/-- Embeds `AuthService.login` (`auth.service.ts` lines 152-192). -/
def login (user : Option UserRec) (password : String) (now : Nat) :
    Except AppError (UserRec × AuthResponse) :=
  match user with
  | none => Except.error (AppError.mk "Invalid email or password" 401)
  | some u =>
    if ¬ u.isEmailVerified then
      Except.error (AppError.mk
        "Please verify your email before logging in. Check your email for verification code." 401)
    else if ¬ bcryptCompare password u.password then
      Except.error (AppError.mk "Invalid email or password" 401)
    else
      let u2 := { u with lastLogin := some now }
      Except.ok (u2, mkAuthResponse u2)

/-- Embeds `AuthService.forgotPassword` (`auth.service.ts` lines 239-263).
Returns the post-state of the store slot for that email together with the
message; a missing account is left missing and answered with the same
message. -/
def forgotPassword (user : Option UserRec) (resetCode : String) (now : Nat)
    (deliveryOk : Bool) : Except AppError (Option UserRec × String) :=
  match user with
  | none => Except.ok (none, forgotMessage)
  | some u =>
    if ¬ u.isEmailVerified then
      Except.error notVerifiedForgotError
    else
      let u2 := { u with
        passwordResetCode := some resetCode
        passwordResetExpires := some (now + codeWindowMs) }
      -- send result awaited but discarded, sendEmail never throws
      let _sent := EmailService.sendCodeEmail deliveryOk
      Except.ok (some u2, forgotMessage)

/-- The Mongo query filter shared by `verifyResetCode` and
`resetPassword`: `{email, passwordResetCode: code,
passwordResetExpires: {$gt: new Date()}}`.  `$gt` on an absent field does
not match. -/
def resetQueryMatches (u : UserRec) (code : String) (now : Nat) : Bool :=
  u.passwordResetCode == some code &&
    (match u.passwordResetExpires with
     | some e => now < e
     | none => false)

/-- Embeds `AuthService.verifyResetCode` (`auth.service.ts` lines 268-280). -/
def verifyResetCode (user : Option UserRec) (code : String) (now : Nat) :
    Except AppError String :=
  match user with
  | none => Except.error invalidResetCodeError
  | some u =>
    if resetQueryMatches u code now then
      Except.ok "Reset code verified successfully"
    else
      Except.error invalidResetCodeError

/-- Embeds `AuthService.resetPassword` (`auth.service.ts` lines 285-321). -/
def resetPassword (user : Option UserRec) (code newPassword : String)
    (now : Nat) : Except AppError (UserRec × AuthResponse) :=
  match user with
  | none => Except.error invalidResetCodeError
  | some u =>
    if resetQueryMatches u code now then
      let u2 := { u with
        password := bcryptHash newPassword
        passwordResetCode := none
        passwordResetExpires := none
        lastLogin := some now }
      Except.ok (u2, mkAuthResponse u2)
    else
      Except.error invalidResetCodeError

/-- Embeds `AuthService.updateProfile` (`auth.service.ts` lines 326-346); the
projected profile the source also returns is determined by the record. -/
def updateProfile (user : Option UserRec) (name : String) :
    Except AppError UserRec :=
  match user with
  | none => Except.error (AppError.mk "User not found" 404)
  | some u => Except.ok { u with name := name }

/-- Embeds `AuthService.changePassword` (`auth.service.ts` lines 351-366). -/
def changePassword (user : Option UserRec) (currentPassword newPassword : String) :
    Except AppError UserRec :=
  match user with
  | none => Except.error (AppError.mk "User not found" 404)
  | some u =>
    if ¬ bcryptCompare currentPassword u.password then
      Except.error (AppError.mk "Current password is incorrect" 400)
    else
      Except.ok { u with password := bcryptHash newPassword }

/-- Embeds `AuthService.deleteAccount` (`auth.service.ts` lines 371-385). -/
def deleteAccount (user : Option UserRec) (password : String) :
    Except AppError Unit :=
  match user with
  | none => Except.error (AppError.mk "User not found" 404)
  | some u =>
    if ¬ bcryptCompare password u.password then
      Except.error (AppError.mk "Password is incorrect" 400)
    else
      Except.ok ()

/-- One request to the auth service, with its arguments.  Read-only
operations that never write the store (`getProfile`, `refreshToken`) are
omitted; `verifyResetCode` is kept because the spec names it, though it
too never writes. -/
inductive AuthOp where
  | register (name email password code : String) (freshId now : Nat) (deliveryOk : Bool)
  | verifyEmail (code : String) (now : Nat) (deliveryOk : Bool)
  | resendVerificationCode (code : String) (now : Nat) (deliveryOk : Bool)
  | login (password : String) (now : Nat)
  | forgotPassword (code : String) (now : Nat) (deliveryOk : Bool)
  | verifyResetCode (code : String) (now : Nat)
  | resetPassword (code newPassword : String) (now : Nat)
  | updateProfile (name : String)
  | changePassword (currentPassword newPassword : String)
  | deleteAccount (password : String)

/-- Post-state of the store slot addressed by an operation.  In the
source every `throw` happens before the `user.save()` call of its
operation, so an erroring operation leaves the record untouched. -/
def applyOp : AuthOp → Option UserRec → Option UserRec
  | AuthOp.register n e p c fid now dOk, st =>
    match register st n e p c fid now dOk with
    | Except.ok (u2, _, _) => some u2
    | Except.error _ => st
  | AuthOp.verifyEmail c now dOk, st =>
    match verifyEmail st c now dOk with
    | Except.ok (u2, _) => some u2
    | Except.error _ => st
  | AuthOp.resendVerificationCode c now dOk, st =>
    match resendVerificationCode st c now dOk with
    | Except.ok (u2, _) => some u2
    | Except.error _ => st
  | AuthOp.login p now, st =>
    match login st p now with
    | Except.ok (u2, _) => some u2
    | Except.error _ => st
  | AuthOp.forgotPassword c now dOk, st =>
    match forgotPassword st c now dOk with
    | Except.ok (st2, _) => st2
    | Except.error _ => st
  | AuthOp.verifyResetCode _ _, st => st
  | AuthOp.resetPassword c np now, st =>
    match resetPassword st c np now with
    | Except.ok (u2, _) => some u2
    | Except.error _ => st
  | AuthOp.updateProfile n, st =>
    match updateProfile st n with
    | Except.ok u2 => some u2
    | Except.error _ => st
  | AuthOp.changePassword cur np, st =>
    match changePassword st cur np with
    | Except.ok u2 => some u2
    | Except.error _ => st
  | AuthOp.deleteAccount p, st =>
    match deleteAccount st p with
    | Except.ok _ => none
    | Except.error _ => st

/-- The spec §3 pairing invariant on one record: verification code and
its expiry both present or both absent, and likewise for the reset pair. -/
def pairedUser (u : UserRec) : Bool :=
  (u.emailVerificationCode.isSome == u.emailVerificationExpires.isSome) &&
    (u.passwordResetCode.isSome == u.passwordResetExpires.isSome)

/-- The pairing invariant on a store slot. -/
def pairInvState : Option UserRec → Bool
  | none => true
  | some u => pairedUser u

/-- Baseline record used to build the concrete test scenarios below:
a fresh unverified account with a pending verification code. -/
def baseUser : UserRec := {
  id := 1
  name := "Ann"
  email := "ann@x.com"
  password := bcryptHash "Passw0rd"
  plan := "free"
  isAdmin := false
  isEmailVerified := false
  emailVerificationCode := some "111111"
  emailVerificationExpires := some 1000
  passwordResetCode := none
  passwordResetExpires := none
  connectedPlatforms := []
  videosGenerated := 0
  lastLogin := some 0 }

def uC2 : UserRec := { baseUser with id := 2 }

/-- State of `uC2` after its verification code is consumed at time 5. -/
def uC2v : UserRec := { uC2 with
  isEmailVerified := true
  emailVerificationCode := none
  emailVerificationExpires := none
  lastLogin := some 5 }

/-- A verified account with a pending reset code, for the reset half of
the single-use scenario. -/
def uC2r : UserRec := { baseUser with
  id := 22
  isEmailVerified := true
  emailVerificationCode := none
  emailVerificationExpires := none
  passwordResetCode := some "777777"
  passwordResetExpires := some 1000 }

/-- State of `uC2r` after its reset code is consumed at time 5. -/
def uC2rv : UserRec := { uC2r with
  password := bcryptHash "NewPass1"
  passwordResetCode := none
  passwordResetExpires := none
  lastLogin := some 5 }

def uC3 : UserRec := { baseUser with id := 3, emailVerificationCode := some "444444" }

/-- State of `uC3` after a successful verification at the expiry instant 1000. -/
def uC3v : UserRec := { uC3 with
  isEmailVerified := true
  emailVerificationCode := none
  emailVerificationExpires := none
  lastLogin := some 1000 }

def uC4 : UserRec := { baseUser with id := 4 }

def uC5 : UserRec := { baseUser with
  id := 5
  isEmailVerified := true
  emailVerificationCode := none
  emailVerificationExpires := none }

def uC6 : UserRec := { baseUser with
  id := 6
  isEmailVerified := true
  emailVerificationCode := none
  emailVerificationExpires := none }

/-- State of `uC6` after `forgotPassword` writes a reset pair at time 7. -/
def uC6post : UserRec := { uC6 with
  passwordResetCode := some "333333"
  passwordResetExpires := some (7 + codeWindowMs) }

def uC7 : UserRec := { baseUser with id := 7 }

def uC8 : UserRec := { baseUser with
  id := 8
  isEmailVerified := true
  emailVerificationCode := none
  emailVerificationExpires := none }

def uC9 : UserRec := { baseUser with id := 9 }

def uC10 : UserRec := { baseUser with id := 10 }

/-- The error thrown by `login` for an unverified account
(`auth.service.ts` line 162). -/
def notVerifiedLoginError : AppError :=
  AppError.mk
    "Please verify your email before logging in. Check your email for verification code." 401

/-- Whether a service call succeeded (did not throw). -/
def isOkB {α : Type} : Except AppError α → Bool
  | Except.ok _ => true
  | Except.error _ => false

/-- A verified account with a pending reset code, for the reset half of
the expiry-window scenarios. -/
def uC3r : UserRec := { baseUser with
  id := 33
  isEmailVerified := true
  emailVerificationCode := none
  emailVerificationExpires := none
  passwordResetCode := some "555555"
  passwordResetExpires := some 1000 }

/-- An unverified account holding the same email, for the overwrite
branch of the registration scenario. -/
def uC5u : UserRec := { baseUser with id := 55 }

/-- A verified account for the forgot-password uniformity scenario. -/
def uC7v : UserRec := { baseUser with
  id := 71
  isEmailVerified := true
  emailVerificationCode := none
  emailVerificationExpires := none }

/-- Successful consumption of a verification code: the stored record is
unverified, holds a non-empty code equal to the submitted one, and the
expiry has not passed (`expires < now` is false). -/
theorem verifyEmail_success (u : UserRec) (c : String) (t : Nat) (d : Bool) (e : Nat)
    (hv : u.isEmailVerified = false) (hc : u.emailVerificationCode = some c)
    (hce : c.isEmpty = false) (he : u.emailVerificationExpires = some e)
    (ht : ¬ e < t) :
    verifyEmail (some u) c t d =
      Except.ok ({ u with
                   isEmailVerified := true
                   emailVerificationCode := none
                   emailVerificationExpires := none
                   lastLogin := some t },
                 mkAuthResponse { u with
                   isEmailVerified := true
                   emailVerificationCode := none
                   emailVerificationExpires := none
                   lastLogin := some t }) := by
  simp [verifyEmail, hv, hc, he, strFalsy, dateFalsy, hce, ht]

/-- On an already-verified account `verifyEmail` fails with the
AlreadyVerified error no matter the code or time. -/
theorem verifyEmail_alreadyVerified (u : UserRec) (hv : u.isEmailVerified = true)
    (code : String) (t : Nat) (d : Bool) :
    verifyEmail (some u) code t d = Except.error alreadyVerifiedError := by
  simp [verifyEmail, hv]

/-- Successful consumption of a reset code replaces the password hash,
clears the pair and stamps lastLogin. -/
theorem resetPassword_success (u : UserRec) (c np : String) (t : Nat)
    (hm : resetQueryMatches u c t = true) :
    resetPassword (some u) c np t =
      Except.ok ({ u with
                   password := bcryptHash np
                   passwordResetCode := none
                   passwordResetExpires := none
                   lastLogin := some t },
                 mkAuthResponse { u with
                   password := bcryptHash np
                   passwordResetCode := none
                   passwordResetExpires := none
                   lastLogin := some t }) := by
  simp [resetPassword, hm]

/-- C1: a registered user (fresh or overwritten-unverified record) who
presents the stored code before its expiry is verified exactly once —
`isEmailVerified` is set, `lastLogin` stamped, a token pair returned —
and an identical second `verifyEmail` call fails with AlreadyVerified. -/
theorem C1_register_then_verify_once (existing : Option UserRec)
    (n em p c : String) (fid now t t2 : Nat) (d1 d2 d3 : Bool)
    (hex : ∀ u, existing = some u → u.isEmailVerified = false)
    (hne : c.isEmpty = false) (ht : t < now + codeWindowMs) :
    ∃ u u2 resp,
      register existing n em p c fid now d1 = Except.ok (u, regMessage, u.id) ∧
      verifyEmail (some u) c t d2 = Except.ok (u2, resp) ∧
      u2.isEmailVerified = true ∧ u2.lastLogin = some t ∧ resp = mkAuthResponse u2 ∧
      verifyEmail (some u2) c t2 d3 = Except.error alreadyVerifiedError := by
  have hnt : ¬ (now + codeWindowMs < t) := by omega
  cases existing with
  | none =>
    refine ⟨_, _, _, rfl,
      verifyEmail_success _ c t d2 (now + codeWindowMs) rfl rfl hne rfl hnt,
      rfl, rfl, rfl, verifyEmail_alreadyVerified _ rfl c t2 d3⟩
  | some u0 =>
    have hu0 : u0.isEmailVerified = false := hex u0 rfl
    refine ⟨{ u0 with
              name := n
              password := bcryptHash p
              emailVerificationCode := some c
              emailVerificationExpires := some (now + codeWindowMs) }, _, _, ?_,
      verifyEmail_success _ c t d2 (now + codeWindowMs) hu0 rfl hne rfl hnt,
      rfl, rfl, rfl, verifyEmail_alreadyVerified _ rfl c t2 d3⟩
    simp [register, hu0]

/-- C1 witness: the registration round-trip at concrete inputs. -/
theorem C1_witness :
    ∃ u u2 resp,
      register none "Ann" "ann@x.com" "Passw0rd" "123456" 1 0 true =
        Except.ok (u, regMessage, u.id) ∧
      verifyEmail (some u) "123456" 5 true = Except.ok (u2, resp) ∧
      u2.isEmailVerified = true ∧ u2.lastLogin = some 5 ∧ resp = mkAuthResponse u2 ∧
      verifyEmail (some u2) "123456" 6 true = Except.error alreadyVerifiedError :=
  C1_register_then_verify_once none "Ann" "ann@x.com" "Passw0rd" "123456" 1 0 5 6
    true true true (fun u h => nomatch h) rfl (by decide)

/-- C2 counterexample: code reuse does fail after consumption, but with
400-status errors — AlreadyVerified on the email path and
InvalidOrExpiredCode on the reset path — neither of which is in the
Unauthorized (401) status class the claim asserts. -/
theorem C2_counterexample :
    verifyEmail (some uC2) "111111" 5 true = Except.ok (uC2v, mkAuthResponse uC2v) ∧
    verifyEmail (some uC2v) "111111" 6 true = Except.error alreadyVerifiedError ∧
    resetPassword (some uC2r) "777777" "NewPass1" 5 =
      Except.ok (uC2rv, mkAuthResponse uC2rv) ∧
    resetPassword (some uC2rv) "777777" "Other999" 6 =
      Except.error invalidResetCodeError ∧
    isUnauthorizedStatus alreadyVerifiedError = false ∧
    isUnauthorizedStatus invalidResetCodeError = false :=
  ⟨rfl, rfl, rfl, rfl, by decide, by decide⟩

/-- C2 amended: codes are single-use — successful consumption clears the
stored code/expiry pair on both paths, and presenting the same string
again fails, with the 400-status AlreadyVerified error on the email path
and the 400-status InvalidOrExpiredCode error on the reset path. -/
theorem C2_single_use (u : UserRec) (c : String) (e t t2 t3 : Nat) (d1 d2 : Bool)
    (np np2 : String) :
    (u.isEmailVerified = false → u.emailVerificationCode = some c → c.isEmpty = false →
      u.emailVerificationExpires = some e → ¬ e < t →
      ∃ u2 resp, verifyEmail (some u) c t d1 = Except.ok (u2, resp) ∧
        u2.emailVerificationCode = none ∧ u2.emailVerificationExpires = none ∧
        verifyEmail (some u2) c t2 d2 = Except.error alreadyVerifiedError) ∧
    (u.passwordResetCode = some c → u.passwordResetExpires = some e → t < e →
      ∃ u2 resp, resetPassword (some u) c np t = Except.ok (u2, resp) ∧
        u2.passwordResetCode = none ∧ u2.passwordResetExpires = none ∧
        verifyResetCode (some u2) c t3 = Except.error invalidResetCodeError ∧
        resetPassword (some u2) c np2 t3 = Except.error invalidResetCodeError) := by
  constructor
  · intro hv hc hce he hexp
    exact ⟨_, _, verifyEmail_success u c t d1 e hv hc hce he hexp, rfl, rfl,
      verifyEmail_alreadyVerified _ rfl c t2 d2⟩
  · intro hrc hre hexp
    have hm : resetQueryMatches u c t = true := by
      simp [resetQueryMatches, hrc, hre, hexp]
    refine ⟨_, _, resetPassword_success u c np t hm, rfl, rfl, ?_, ?_⟩
    · simp [verifyResetCode, resetQueryMatches]
    · simp [resetPassword, resetQueryMatches]

/-- C2 witness: single-use behaviour at concrete inputs on both paths. -/
theorem C2_witness :
    (∃ u2 resp, verifyEmail (some uC2) "111111" 5 true = Except.ok (u2, resp) ∧
      u2.emailVerificationCode = none ∧ u2.emailVerificationExpires = none ∧
      verifyEmail (some u2) "111111" 6 true = Except.error alreadyVerifiedError) ∧
    (∃ u2 resp, resetPassword (some uC2r) "777777" "NewPass1" 5 = Except.ok (u2, resp) ∧
      u2.passwordResetCode = none ∧ u2.passwordResetExpires = none ∧
      verifyResetCode (some u2) "777777" 6 = Except.error invalidResetCodeError ∧
      resetPassword (some u2) "777777" "Other999" 6 =
        Except.error invalidResetCodeError) :=
  ⟨(C2_single_use uC2 "111111" 1000 5 6 6 true true "NewPass1" "Other999").1
      rfl rfl rfl rfl (by decide),
   (C2_single_use uC2r "777777" 1000 5 6 6 true true "NewPass1" "Other999").2
      rfl rfl (by decide)⟩

/-- C3 counterexample: `uC3` stores code "444444" expiring at 1000, yet
presenting the matching code exactly at the expiry instant 1000 succeeds
(the check is `expires < now`), contradicting the claimed strict
`t < expiry` bound for the email-verification path. -/
theorem C3_counterexample :
    uC3.emailVerificationExpires = some 1000 ∧
    uC3.emailVerificationCode = some "444444" ∧
    uC3.isEmailVerified = false ∧
    verifyEmail (some uC3) "444444" 1000 true = Except.ok (uC3v, mkAuthResponse uC3v) ∧
    uC3v.isEmailVerified = true := ⟨rfl, rfl, rfl, rfl, rfl⟩

/-- C3 amended: presenting a code at time t succeeds iff the string
matches and t ≤ expiry on the email-verification path (the boundary
instant still succeeds, since the code tests `expires < now`), while on
the reset path success is strict: t < expiry (the Mongo `$gt` filter). -/
theorem C3_code_window (u v : UserRec) (c cr code coder : String) (e er t : Nat)
    (dOk : Bool)
    (hv : u.isEmailVerified = false) (hc : u.emailVerificationCode = some c)
    (hce : c.isEmpty = false) (he : u.emailVerificationExpires = some e)
    (hrc : v.passwordResetCode = some cr) (hre : v.passwordResetExpires = some er) :
    (isOkB (verifyEmail (some u) code t dOk) = true ↔ (t ≤ e ∧ code = c)) ∧
    (isOkB (verifyResetCode (some v) coder t) = true ↔ (t < er ∧ coder = cr)) := by
  constructor
  · by_cases h1 : e < t
    · simp [verifyEmail, hv, hc, he, strFalsy, dateFalsy, hce, h1, isOkB]
    · by_cases h2 : c = code
      · have hce2 : code.isEmpty = false := h2 ▸ hce
        simp [verifyEmail, hv, hc, he, strFalsy, dateFalsy, hce, hce2, h1, h2, isOkB]
        omega
      · simp [verifyEmail, hv, hc, he, strFalsy, dateFalsy, hce, h1, h2, isOkB,
          Ne.symm h2]
  · by_cases h1 : cr = coder
    · by_cases h2 : t < er
      · simp [verifyResetCode, resetQueryMatches, hrc, hre, h1, h2, isOkB]
      · simp [verifyResetCode, resetQueryMatches, hrc, hre, h1, h2, isOkB]
    · have h2 : coder ≠ cr := fun h => h1 h.symm
      simp [verifyResetCode, resetQueryMatches, hrc, hre, h1, h2, isOkB]

/-- C3 witness: the window biconditionals at concrete records. -/
theorem C3_witness :
    (isOkB (verifyEmail (some uC3) "444444" 900 true) = true ↔
      (900 ≤ 1000 ∧ "444444" = "444444")) ∧
    (isOkB (verifyResetCode (some uC3r) "555555" 900) = true ↔
      (900 < 1000 ∧ "555555" = "555555")) :=
  C3_code_window uC3 uC3r "444444" "555555" "444444" "555555" 1000 1000 900 true
    rfl rfl rfl rfl rfl rfl

/-- C4: login against an unverified account fails with the 401
(Unauthorized-class) not-verified error for every password argument: the
password is never consulted. -/
theorem C4_unverified_login_rejected (u : UserRec) (pw : String) (now : Nat)
    (h : u.isEmailVerified = false) :
    login (some u) pw now = Except.error notVerifiedLoginError ∧
    isUnauthorizedStatus notVerifiedLoginError = true := by
  constructor
  · simp [login, h, notVerifiedLoginError]
  · decide

/-- C4 witness: even the correct password of `uC4` is rejected. -/
theorem C4_witness :
    bcryptCompare "Passw0rd" uC4.password = true ∧
    (login (some uC4) "Passw0rd" 42 = Except.error notVerifiedLoginError ∧
      isUnauthorizedStatus notVerifiedLoginError = true) :=
  ⟨by decide, C4_unverified_login_rejected uC4 "Passw0rd" 42 rfl⟩

/-- C5 counterexample: registering an email held by a Verified record
fails with statusCode 400, not the 409 Conflict class the claim names. -/
theorem C5_counterexample :
    register (some uC5) "Bob" "ann@x.com" "hunter22" "123456" 77 100 true =
      Except.error (AppError.mk userExistsMessage 400) ∧
    (AppError.mk userExistsMessage 400).statusCode ≠ 409 := ⟨rfl, by decide⟩

/-- C5 amended: register rejects an email held by a Verified record with
the 400-status duplicate error (not 409); an Unverified holder is
overwritten in place — same id, new name, new password hash, fresh
code/expiry pair; an unused email creates a fresh Unverified record. -/
theorem C5_register_cases (name email pw c : String) (fid now : Nat) (dOk : Bool) :
    (∀ u : UserRec, u.isEmailVerified = true →
      register (some u) name email pw c fid now dOk =
        Except.error (AppError.mk userExistsMessage 400)) ∧
    (∀ u : UserRec, u.isEmailVerified = false →
      register (some u) name email pw c fid now dOk =
        Except.ok ({ u with
                      name := name
                      password := bcryptHash pw
                      emailVerificationCode := some c
                      emailVerificationExpires := some (now + codeWindowMs) },
                   regMessage, u.id)) ∧
    register none name email pw c fid now dOk =
      Except.ok (⟨fid, name, email, bcryptHash pw, "free", false, false, some c,
                  some (now + codeWindowMs), none, none, [], 0, some now⟩,
                 regMessage, fid) := by
  refine ⟨fun u h => by simp [register, h], fun u h => by simp [register, h],
    by simp [register]⟩

/-- C5 witness: the conflict and overwrite branches at concrete records. -/
theorem C5_witness :
    register (some uC5) "Bob" "ann@x.com" "hunter22" "123456" 77 100 true =
      Except.error (AppError.mk userExistsMessage 400) ∧
    register (some uC5u) "Bob" "ann@x.com" "hunter22" "123456" 77 100 true =
      Except.ok ({ uC5u with
                    name := "Bob"
                    password := bcryptHash "hunter22"
                    emailVerificationCode := some "123456"
                    emailVerificationExpires := some (100 + codeWindowMs) },
                 regMessage, uC5u.id) :=
  ⟨(C5_register_cases "Bob" "ann@x.com" "hunter22" "123456" 77 100 true).1 uC5 rfl,
   (C5_register_cases "Bob" "ann@x.com" "hunter22" "123456" 77 100 true).2.1 uC5u rfl⟩

/-- C6 counterexample: with the mail transport failing
(deliveryOk = false) `forgotPassword` still returns the success message
and the just-written reset pair is retained on the record — no Internal
error is raised and nothing is rolled back. -/
theorem C6_counterexample :
    forgotPassword (some uC6) "333333" 7 false = Except.ok (some uC6post, forgotMessage) ∧
    uC6post.passwordResetCode = some "333333" ∧
    uC6post.passwordResetExpires = some (7 + codeWindowMs) := ⟨rfl, rfl, rfl⟩

/-- C6 amended: notification-gateway failure is invisible to every
code-dispatch site — `sendEmail` catches transport errors and returns
false, and register, resendVerification and forgotPassword discard that
Boolean — so each returns the same result whether delivery succeeds or
fails, and a verified account keeps the reset pair `forgotPassword` just
wrote. -/
theorem C6_delivery_failure_swallowed (st : Option UserRec) (n e p c : String)
    (fid now : Nat) :
    register st n e p c fid now false = register st n e p c fid now true ∧
    resendVerificationCode st c now false = resendVerificationCode st c now true ∧
    forgotPassword st c now false = forgotPassword st c now true ∧
    (∀ u, st = some u → u.isEmailVerified = true →
      forgotPassword st c now false =
        Except.ok (some { u with
                          passwordResetCode := some c
                          passwordResetExpires := some (now + codeWindowMs) },
                   forgotMessage)) := by
  refine ⟨?_, ?_, ?_, ?_⟩
  · cases st with
    | none => rfl
    | some u => simp [register]
  · cases st with
    | none => rfl
    | some u => simp [resendVerificationCode]
  · cases st with
    | none => rfl
    | some u => simp [forgotPassword]
  · intro u hst hv
    subst hst
    simp [forgotPassword, hv]

/-- C6 witness: the retained reset pair at a concrete verified record. -/
theorem C6_witness :
    forgotPassword (some uC6) "333333" 7 false =
      Except.ok (some { uC6 with
                        passwordResetCode := some "333333"
                        passwordResetExpires := some (7 + codeWindowMs) },
                 forgotMessage) :=
  (C6_delivery_failure_swallowed (some uC6) "n" "e" "p" "333333" 0 7).2.2.2 uC6 rfl rfl

/-- C7 counterexample: when the email belongs to an existing Unverified
record, `forgotPassword` throws a distinguishable 400 error while the
same call on an absent record returns the uniform success message — the
response does reveal account existence in this case. -/
theorem C7_counterexample :
    forgotPassword (some uC7) "222222" 10 true = Except.error notVerifiedForgotError ∧
    forgotPassword none "222222" 10 true = Except.ok (none, forgotMessage) := ⟨rfl, rfl⟩

/-- C7 amended: the response of `forgotPassword` is the identical success
message whenever the email is absent or belongs to a Verified account
(for any delivery outcome); only an Unverified holder produces a
distinguishable error. -/
theorem C7_uniform_response (u : UserRec) (c1 c2 : String) (t1 t2 : Nat) (d1 d2 : Bool)
    (hv : u.isEmailVerified = true) :
    forgotPassword (some u) c1 t1 d1 =
      Except.ok (some { u with
                        passwordResetCode := some c1
                        passwordResetExpires := some (t1 + codeWindowMs) },
                 forgotMessage) ∧
    forgotPassword none c2 t2 d2 = Except.ok (none, forgotMessage) := by
  constructor
  · simp [forgotPassword, hv]
  · rfl

/-- C7 witness: uniform response at a concrete verified record. -/
theorem C7_witness :
    forgotPassword (some uC7v) "5" 11 true =
      Except.ok (some { uC7v with
                        passwordResetCode := some "5"
                        passwordResetExpires := some (11 + codeWindowMs) },
                 forgotMessage) ∧
    forgotPassword none "6" 12 false = Except.ok (none, forgotMessage) :=
  C7_uniform_response uC7v "5" "6" 11 12 true false rfl

/-- C8 counterexample: the wrong-current-password failure of
`changePassword` carries statusCode 400, not the Unauthorized (401)
status class the claim names. -/
theorem C8_counterexample :
    changePassword (some uC8) "wrongpw" "newpw" =
      Except.error (AppError.mk "Current password is incorrect" 400) ∧
    isUnauthorizedStatus (AppError.mk "Current password is incorrect" 400) = false :=
  ⟨rfl, by decide⟩

/-- C8 amended: `changePassword` with a wrong current password fails with
the 400-status IncorrectCurrentPassword error, the store slot is left
exactly as it was, and any password that authenticated before still
does. -/
theorem C8_wrong_password_frame (u : UserRec) (cur np : String)
    (hw : bcryptCompare cur u.password = false) :
    changePassword (some u) cur np =
      Except.error (AppError.mk "Current password is incorrect" 400) ∧
    applyOp (AuthOp.changePassword cur np) (some u) = some u ∧
    (∀ old now, u.isEmailVerified = true → bcryptCompare old u.password = true →
      isOkB (login (some u) old now) = true) := by
  have herr : changePassword (some u) cur np =
      Except.error (AppError.mk "Current password is incorrect" 400) := by
    simp [changePassword, hw]
  refine ⟨herr, ?_, ?_⟩
  · simp [applyOp, herr]
  · intro old now hv hold
    simp [login, hv, hold, isOkB]

/-- C8 witness: concrete wrong-password attempt leaves `uC8` intact and
its real password still logs in. -/
theorem C8_witness :
    changePassword (some uC8) "wrongpw" "newpw" =
      Except.error (AppError.mk "Current password is incorrect" 400) ∧
    applyOp (AuthOp.changePassword "wrongpw" "newpw") (some uC8) = some uC8 ∧
    isOkB (login (some uC8) "Passw0rd" 9) = true := by
  have h := C8_wrong_password_frame uC8 "wrongpw" "newpw" (by decide)
  exact ⟨h.1, h.2.1, h.2.2 "Passw0rd" 9 rfl (by decide)⟩

/-- C9: every auth-service operation preserves the pairing invariant —
each code field and its expiry are both present or both absent: the
writers set or clear the two members of a pair together, and erroring
calls leave the record untouched. -/
theorem C9_pairing_invariant (op : AuthOp) (st : Option UserRec)
    (h : pairInvState st = true) : pairInvState (applyOp op st) = true := by
  cases op with
  | register n e p c fid now dOk =>
    cases st with
    | none => simp [applyOp, register, pairInvState, pairedUser]
    | some u =>
      by_cases hv : u.isEmailVerified
      · simpa [applyOp, register, hv] using h
      · simp [pairInvState, pairedUser, Bool.and_eq_true] at h
        simp [applyOp, register, hv, pairInvState, pairedUser, Bool.and_eq_true, h.2]
  | verifyEmail c now dOk =>
    cases st with
    | none => simpa [applyOp, verifyEmail] using h
    | some u =>
      by_cases hv : u.isEmailVerified
      · simpa [applyOp, verifyEmail, hv] using h
      · cases hc : u.emailVerificationCode with
        | none => simpa [applyOp, verifyEmail, hv, hc, strFalsy] using h
        | some cv =>
          cases he : u.emailVerificationExpires with
          | none => simpa [applyOp, verifyEmail, hv, hc, he, strFalsy, dateFalsy] using h
          | some e =>
            by_cases hemp : cv.isEmpty
            · simpa [applyOp, verifyEmail, hv, hc, he, strFalsy, dateFalsy, hemp] using h
            · by_cases hexp : e < now
              · simpa [applyOp, verifyEmail, hv, hc, he, strFalsy, dateFalsy, hemp,
                  hexp] using h
              · by_cases hmatch : cv ≠ c
                · simpa [applyOp, verifyEmail, hv, hc, he, strFalsy, dateFalsy, hemp,
                    hexp, hmatch] using h
                · simp [pairInvState, pairedUser, Bool.and_eq_true] at h
                  simp [applyOp, verifyEmail, hv, hc, he, strFalsy, dateFalsy, hemp,
                    hexp, hmatch, pairInvState, pairedUser, Bool.and_eq_true, h.2]
  | resendVerificationCode c now dOk =>
    cases st with
    | none => simpa [applyOp, resendVerificationCode] using h
    | some u =>
      by_cases hv : u.isEmailVerified
      · simpa [applyOp, resendVerificationCode, hv] using h
      · simp [pairInvState, pairedUser, Bool.and_eq_true] at h
        simp [applyOp, resendVerificationCode, hv, pairInvState, pairedUser,
          Bool.and_eq_true, h.2]
  | login p now =>
    cases st with
    | none => simpa [applyOp, login] using h
    | some u =>
      by_cases hv : u.isEmailVerified
      · by_cases hp : bcryptCompare p u.password
        · simp [pairInvState, pairedUser, Bool.and_eq_true] at h
          simp [applyOp, login, hv, hp, pairInvState, pairedUser, Bool.and_eq_true,
            h.1, h.2]
        · simpa [applyOp, login, hv, hp] using h
      · simpa [applyOp, login, hv] using h
  | forgotPassword c now dOk =>
    cases st with
    | none => simpa [applyOp, forgotPassword] using h
    | some u =>
      by_cases hv : u.isEmailVerified
      · simp [pairInvState, pairedUser, Bool.and_eq_true] at h
        simp [applyOp, forgotPassword, hv, pairInvState, pairedUser, Bool.and_eq_true,
          h.1]
      · simpa [applyOp, forgotPassword, hv] using h
  | verifyResetCode c now => simpa [applyOp] using h
  | resetPassword c np now =>
    cases st with
    | none => simpa [applyOp, resetPassword] using h
    | some u =>
      by_cases hm : resetQueryMatches u c now
      · simp [pairInvState, pairedUser, Bool.and_eq_true] at h
        simp [applyOp, resetPassword, hm, pairInvState, pairedUser, Bool.and_eq_true,
          h.1]
      · simpa [applyOp, resetPassword, hm] using h
  | updateProfile n =>
    cases st with
    | none => simpa [applyOp, updateProfile] using h
    | some u =>
      simp [pairInvState, pairedUser, Bool.and_eq_true] at h
      simp [applyOp, updateProfile, pairInvState, pairedUser, Bool.and_eq_true,
        h.1, h.2]
  | changePassword cur np =>
    cases st with
    | none => simpa [applyOp, changePassword] using h
    | some u =>
      by_cases hp : bcryptCompare cur u.password
      · simp [pairInvState, pairedUser, Bool.and_eq_true] at h
        simp [applyOp, changePassword, hp, pairInvState, pairedUser, Bool.and_eq_true,
          h.1, h.2]
      · simpa [applyOp, changePassword, hp] using h
  | deleteAccount p =>
    cases st with
    | none => simpa [applyOp, deleteAccount] using h
    | some u =>
      by_cases hp : bcryptCompare p u.password
      · simp [applyOp, deleteAccount, hp, pairInvState]
      · simpa [applyOp, deleteAccount, hp] using h

/-- C9 witness: invariant preservation at concrete operations. -/
theorem C9_witness :
    pairInvState (applyOp (AuthOp.forgotPassword "888888" 5 true) (some uC9)) = true ∧
    pairInvState (applyOp (AuthOp.verifyEmail "111111" 5 true) (some uC9)) = true :=
  ⟨C9_pairing_invariant (AuthOp.forgotPassword "888888" 5 true) (some uC9) (by decide),
   C9_pairing_invariant (AuthOp.verifyEmail "111111" 5 true) (some uC9) (by decide)⟩

/-- C10: on an unverified account whose stored verification code has
expired (`expires < now`), `verifyEmail` reports the expired-code error
for every submitted code string — the expiry check precedes the
mismatch check. -/
theorem C10_expiry_precedes_mismatch (u : UserRec) (c code : String) (e t : Nat)
    (dOk : Bool)
    (hv : u.isEmailVerified = false) (hc : u.emailVerificationCode = some c)
    (hce : c.isEmpty = false) (he : u.emailVerificationExpires = some e)
    (hexp : e < t) :
    verifyEmail (some u) code t dOk = Except.error codeExpiredError := by
  simp [verifyEmail, hv, hc, he, strFalsy, dateFalsy, hce, hexp]

/-- C10 witness: a mismatching code still yields the expired error. -/
theorem C10_witness :
    ("999999" = "111111") = False ∧
    verifyEmail (some uC10) "999999" 1001 true = Except.error codeExpiredError :=
  ⟨by decide,
   C10_expiry_precedes_mismatch uC10 "111111" "999999" 1000 1001 true
     rfl rfl rfl rfl (by decide)⟩
